import Mathlib

/-!
Shallow embedding of `src/main.rs` of pyfisch/bean, a minimal Wayland
client: the ping/pong liveness handler on the shell surface, the seat
capability handler with its write-once device-creation flags, the common
input-event filter, and the step sequence of `main` (two sync round-trips,
surface/shell setup, draw and commit, then the unbounded dispatch loop).
Stateful handlers become explicit state passing; the side effects of the
program (requests sent, log lines printed, process steps) become lists of
values describing them.
-/

namespace Bean

/- ### Shell-surface ping/pong handler

Embeds the closure passed to `shell_surface.quick_assign`:
```
if let Event::Ping { serial } = event { shell_surface.pong(serial); }
```
`wl_shell_surface` delivers three event kinds; the handler answers only
`Ping`, issuing a single `pong` request with the same serial. -/

/-- Events a `wl_shell_surface` can deliver to the client. -/
inductive ShellSurfaceEvent where
  | ping (serial : Nat)
  | configure (edges : Nat) (width : Nat) (height : Nat)
  | popupDone
deriving DecidableEq, Repr

/-- Requests the ping handler may send back to the server. -/
inductive ShellRequest where
  | pong (serial : Nat)
deriving DecidableEq, Repr

/-- The `quick_assign` closure on the shell surface: on `Ping { serial }`
send `pong(serial)`, on anything else do nothing. -/
def shellSurfaceHandler : ShellSurfaceEvent → List ShellRequest
  | .ping serial => [.pong serial]
  | .configure _ _ _ => []
  | .popupDone => []

/-- Requests issued over a whole delivered event sequence, in order. -/
def shellSurfaceRun : List ShellSurfaceEvent → List ShellRequest
  | [] => []
  | e :: es => shellSurfaceHandler e ++ shellSurfaceRun es

/-- Serials of the `Ping` events of a sequence, in delivery order. -/
def pingSerials : List ShellSurfaceEvent → List Nat
  | [] => []
  | .ping s :: es => s :: pingSerials es
  | _ :: es => pingSerials es

/- ### Seat capability handler

Embeds the closure passed to `seat.quick_assign`, which captures the two
mutable booleans `pointer_created` and `keyboard_created`:
```
if let SeatEvent::Capabilities { capabilities } = event {
    if !pointer_created && capabilities.contains(Capability::Pointer) {
        pointer_created = true;
        seat.get_pointer().assign(common_filter.clone());
    }
    if !keyboard_created && capabilities.contains(Capability::Keyboard) {
        keyboard_created = true;
        seat.get_keyboard().assign(common_filter.clone());
    }
}
```
The captured booleans become an explicit state record; creating a device
and assigning the filter becomes emitting a `Device` value. -/

/-- The capability bitset carried by a `wl_seat::Capabilities` event; the
program tests only the `Pointer` and `Keyboard` bits, `Touch` is carried
but never read. -/
structure Capabilities where
  pointer : Bool
  keyboard : Bool
  touch : Bool
deriving DecidableEq, Repr

/-- Events a `wl_seat` can deliver. -/
inductive SeatEvent where
  | capabilities (caps : Capabilities)
  | name (n : String)
deriving DecidableEq, Repr

/-- Input devices the handler can create (`get_pointer` / `get_keyboard`). -/
inductive Device where
  | pointer
  | keyboard
deriving DecidableEq, Repr

/-- The two captured mutable flags of the seat handler. -/
structure SeatState where
  pointer_created : Bool
  keyboard_created : Bool
deriving DecidableEq, Repr

/-- Both flags start `false` (`let mut pointer_created = false; ...`). -/
def initSeatState : SeatState := ⟨false, false⟩

/-- One invocation of the seat `quick_assign` closure: returns the updated
flags and the devices created during this call, in creation order
(pointer branch runs first, then the keyboard branch). -/
def seatHandler (s : SeatState) : SeatEvent → SeatState × List Device
  | .capabilities caps =>
    let (pc, dp) :=
      if !s.pointer_created && caps.pointer then (true, [Device.pointer])
      else (s.pointer_created, [])
    let (kc, dk) :=
      if !s.keyboard_created && caps.keyboard then (true, [Device.keyboard])
      else (s.keyboard_created, [])
    (⟨pc, kc⟩, dp ++ dk)
  | .name _ => (s, [])

/-- Running the seat handler over a sequence of delivered events,
accumulating the devices created, in order. -/
def seatRun (s : SeatState) : List SeatEvent → SeatState × List Device
  | [] => (s, [])
  | e :: es =>
    let r := seatHandler s e
    let r' := seatRun r.1 es
    (r'.1, r.2 ++ r'.2)

/-- The Pointer bit an event advertises (`capabilities.contains(Pointer)`);
a non-capability event advertises nothing. -/
def pointerBitOf : SeatEvent → Bool
  | .capabilities caps => caps.pointer
  | .name _ => false

/-- The Keyboard bit an event advertises. -/
def keyboardBitOf : SeatEvent → Bool
  | .capabilities caps => caps.keyboard
  | .name _ => false

/- ### Common input-event filter

Embeds `common_filter = Filter::new(move |event, _, _| match event ...)`.
The `event_enum!` macro builds `Events` as a tagged union of pointer and
keyboard events; each matched sub-kind prints one distinct log line, every
unmatched sub-kind falls into the `_ => {}` arm and prints nothing.
Coordinates travel through the handler unchanged, so they are modelled as
integers; object references become numeric ids. -/

/-- State payload of a `wl_pointer::Button` event. -/
inductive ButtonState where
  | released
  | pressed
deriving DecidableEq, Repr

/-- State payload of a `wl_keyboard::Key` event. -/
inductive KeyState where
  | released
  | pressed
deriving DecidableEq, Repr

/-- Events a `wl_pointer` can deliver. -/
inductive PointerEvent where
  | enter (serial : Nat) (surface : Nat) (surface_x surface_y : Int)
  | leave (serial : Nat) (surface : Nat)
  | motion (time : Nat) (surface_x surface_y : Int)
  | button (serial : Nat) (time : Nat) (button : Nat) (state : ButtonState)
  | axis (time : Nat) (ax : Nat) (value : Int)
  | frame
  | axisSource (source : Nat)
  | axisStop (time : Nat) (ax : Nat)
  | axisDiscrete (ax : Nat) (discrete : Int)
deriving DecidableEq, Repr

/-- Events a `wl_keyboard` can deliver. -/
inductive KeyboardEvent where
  | keymap (format : Nat) (fd : Nat) (size : Nat)
  | enter (serial : Nat) (surface : Nat) (keys : List Nat)
  | leave (serial : Nat) (surface : Nat)
  | key (serial : Nat) (time : Nat) (key : Nat) (state : KeyState)
  | modifiers (serial depressed latched locked group : Nat)
  | repeatInfo (rate delay : Int)
deriving DecidableEq, Repr

/-- The tagged union declared by `event_enum!(Events | Pointer => ...,
Keyboard => ...)`. -/
inductive Events where
  | pointer (event : PointerEvent)
  | keyboard (event : KeyboardEvent)
deriving DecidableEq, Repr

/-- The distinct log lines the filter can print, one per matched arm. -/
inductive LogLine where
  | pointerEnteredAt (x y : Int)
  | pointerLeft
  | pointerMovedTo (x y : Int)
  | buttonWas (button : Nat) (state : ButtonState)
  | gainedKeyboardFocus
  | lostKeyboardFocus
  | keyWas (key : Nat) (state : KeyState)
deriving DecidableEq, Repr

/-- The body of `common_filter`: log lines printed for one event. -/
def common_filter : Events → List LogLine
  | .pointer e =>
    match e with
    | .enter _ _ surface_x surface_y => [.pointerEnteredAt surface_x surface_y]
    | .leave _ _ => [.pointerLeft]
    | .motion _ surface_x surface_y => [.pointerMovedTo surface_x surface_y]
    | .button _ _ button state => [.buttonWas button state]
    | _ => []
  | .keyboard e =>
    match e with
    | .enter _ _ _ => [.gainedKeyboardFocus]
    | .leave _ _ => [.lostKeyboardFocus]
    | .key _ _ key state => [.keyWas key state]
    | _ => []

/- ### The step sequence of `main`

The observable coarse-grained actions of `main`, in program order, become
a trace of `Step` values. Binding a missing global panics (`unwrap` /
`expect`), modelled as an error ending the trace; the dispatch loop is
given explicit fuel, and the environment says which globals discovery
found and which dispatch calls succeed. -/

/-- Coarse-grained actions of `main`, one per statement that talks to the
server or registers a handler. -/
inductive Step where
  | connect
  | syncRoundtrip1
  | loadGl
  | bindCompositor
  | createSurface
  | bindShell
  | getShellSurface
  | assignPingHandler
  | initEgl
  | drawHouse
  | commitSurface
  | setToplevel
  | createCommonFilter
  | bindSeat
  | assignSeatHandler
  | syncRoundtrip2
  | dispatch
deriving DecidableEq, Repr

/-- Ways `main` can die: a missing global makes the matching `unwrap` or
`expect` panic, and an `Err` from `dispatch` makes its `unwrap` panic
(always a non-zero process exit). -/
inductive MainError where
  | compositorUnavailable
  | shellUnavailable
  | seatUnavailable
  | dispatchError
deriving DecidableEq, Repr

/-- The environment `main` runs against: which globals discovery
advertised, and whether the i-th `dispatch` call succeeds. -/
structure Env where
  hasCompositor : Bool
  hasShell : Bool
  hasSeat : Bool
  dispatchOk : Nat → Bool

/-- The straight-line part of `main` before the loop, in source order:
first round-trip, compositor bind, surface creation, shell bind, shell
surface and ping handler, EGL bring-up, draw and commit, set-toplevel,
filter creation, seat bind and handler, second round-trip. Stops with an
error at the first failing bind. -/
def mainSetup (env : Env) : List Step × Option MainError :=
  let t1 := [Step.connect, Step.syncRoundtrip1, Step.loadGl]
  if env.hasCompositor then
    let t2 := t1 ++ [Step.bindCompositor, Step.createSurface]
    if env.hasShell then
      let t3 := t2 ++ [Step.bindShell, Step.getShellSurface, Step.assignPingHandler,
        Step.initEgl, Step.drawHouse, Step.commitSurface, Step.setToplevel,
        Step.createCommonFilter]
      if env.hasSeat then
        (t3 ++ [Step.bindSeat, Step.assignSeatHandler, Step.syncRoundtrip2], none)
      else (t3 ++ [Step.bindSeat], some MainError.seatUnavailable)
    else (t2 ++ [Step.bindShell], some MainError.shellUnavailable)
  else (t1 ++ [Step.bindCompositor], some MainError.compositorUnavailable)

/-- The setup trace when every global is present. -/
def setupStepsOk : List Step :=
  [Step.connect, Step.syncRoundtrip1, Step.loadGl, Step.bindCompositor,
   Step.createSurface, Step.bindShell, Step.getShellSurface,
   Step.assignPingHandler, Step.initEgl, Step.drawHouse, Step.commitSurface,
   Step.setToplevel, Step.createCommonFilter, Step.bindSeat,
   Step.assignSeatHandler, Step.syncRoundtrip2]

/-- The `loop { event_queue.dispatch(..).unwrap() }` tail of `main`: each
iteration is one dispatch step; the first failing call ends the process
with an error, a succeeding call re-enters the loop (bounded by fuel). -/
def dispatchLoop (ok : Nat → Bool) : Nat → Nat → List Step × Option MainError
  | 0, _ => ([], none)
  | fuel + 1, i =>
    if ok i then
      let r := dispatchLoop ok fuel (i + 1)
      (Step.dispatch :: r.1, r.2)
    else ([Step.dispatch], some MainError.dispatchError)

/-- The whole of `main`: the setup steps, then (only if setup survived)
the dispatch loop. -/
def mainRun (env : Env) (fuel : Nat) : List Step × Option MainError :=
  match mainSetup env with
  | (tr, some e) => (tr, some e)
  | (tr, none) =>
    let r := dispatchLoop env.dispatchOk fuel 0
    (tr ++ r.1, r.2)

/-- An environment advertising every global, with dispatch always
succeeding. -/
def allEnv : Env := ⟨true, true, true, fun _ => true⟩

/-- An environment advertising every global whose very first dispatch
call fails. -/
def envDispatchFail : Env := ⟨true, true, true, fun _ => false⟩

/- ### Fallback handlers for unclaimed messages

The three closures handed to `sync_roundtrip` and `dispatch` for events
no proxy claimed: the first round-trip uses `|_, _, _| unreachable!()`
(a panic, aborting the process), the second round-trip and the loop use
`|_, _, _| { /* we ignore unfiltered messages */ }`. Messages are opaque,
modelled as numeric ids. -/

/-- What a fallback closure does with an unclaimed message. -/
inductive FallbackOutcome where
  | abortProcess
  | ignored
deriving DecidableEq, Repr

/-- Fallback of the first `sync_roundtrip`: `unreachable!()`. -/
def roundtrip1Fallback (_msg : Nat) : FallbackOutcome := FallbackOutcome.abortProcess

/-- Fallback of the second `sync_roundtrip`: ignore the message. -/
def roundtrip2Fallback (_msg : Nat) : FallbackOutcome := FallbackOutcome.ignored

/-- Fallback of each `dispatch` call in the loop: ignore the message. -/
def dispatchFallback (_msg : Nat) : FallbackOutcome := FallbackOutcome.ignored

end Bean

namespace Bean

/-- Once `pointer_created` is set, no later invocation creates a pointer. -/
theorem seatRun_pointer_done (es : List SeatEvent) :
    ∀ s : SeatState, s.pointer_created = true →
      (seatRun s es).1.pointer_created = true ∧
      (seatRun s es).2.count Device.pointer = 0 := by
  induction es with
  | nil => intro s h; simp [seatRun, h]
  | cons e es ih =>
    intro s h
    cases e with
    | capabilities caps =>
      have hstep : (seatHandler s (.capabilities caps)).1.pointer_created = true ∧
          (seatHandler s (.capabilities caps)).2.count Device.pointer = 0 := by
        simp only [seatHandler, h]
        cases hk : (!s.keyboard_created && caps.keyboard) <;> simp [hk]
      obtain ⟨h1, h2⟩ := hstep
      have := ih _ h1
      simp [seatRun, List.count_append, h2, this.1, this.2]
    | name n =>
      have := ih s h
      simp [seatRun, seatHandler, List.count_append, this.1, this.2]

/-- C1: the shell-surface handler answers every Ping with exactly one Pong
carrying the same serial, in delivery order, with no omissions or
reordering; non-Ping events contribute nothing. In particular, on a pure
Ping sequence with serials s1..sk the pong sequence is exactly s1..sk. -/
theorem ping_pong_exact (es : List ShellSurfaceEvent) :
    shellSurfaceRun es = (pingSerials es).map ShellRequest.pong ∧
    ∀ serials : List Nat,
      shellSurfaceRun (serials.map ShellSurfaceEvent.ping) =
        serials.map ShellRequest.pong := by
  constructor
  · induction es with
    | nil => rfl
    | cons e es ih =>
      cases e <;> simp [shellSurfaceRun, shellSurfaceHandler, pingSerials, ih]
  · intro serials
    induction serials with
    | nil => rfl
    | cons s ss ih =>
      simp [shellSurfaceRun, shellSurfaceHandler, pingSerials, ih]

/-- C2: over any nonempty sequence of capability notifications that all
have the Pointer bit set, starting from the initial flags, the pointer
device is created exactly once. -/
theorem pointer_created_exactly_once (es : List SeatEvent)
    (hne : es ≠ [])
    (hall : ∀ e ∈ es, ∃ caps : Capabilities,
      e = SeatEvent.capabilities caps ∧ caps.pointer = true) :
    (seatRun initSeatState es).2.count Device.pointer = 1 := by
  cases es with
  | nil => exact absurd rfl hne
  | cons e es =>
    obtain ⟨caps, he, hp⟩ := hall e (List.mem_cons_self e es)
    subst he
    have hstep : (seatHandler initSeatState (.capabilities caps)).1.pointer_created = true ∧
        (seatHandler initSeatState (.capabilities caps)).2.count Device.pointer = 1 := by
      simp only [seatHandler, initSeatState, hp]
      cases hk : caps.keyboard <;> simp [hk]
    obtain ⟨h1, h2⟩ := hstep
    have hrest := seatRun_pointer_done es _ h1
    simp only [seatRun, List.count_append, h2, hrest.2]

/-- Closed witness for C2 at a concrete two-notification sequence. -/
theorem pointer_created_exactly_once_witness :
    (seatRun initSeatState
      [SeatEvent.capabilities ⟨true, false, false⟩,
       SeatEvent.capabilities ⟨true, true, false⟩]).2.count Device.pointer = 1 :=
  pointer_created_exactly_once _ (by decide)
    (by
      intro e he
      simp only [List.mem_cons, List.mem_singleton] at he
      rcases he with h | h | h
      · exact ⟨⟨true, false, false⟩, h, rfl⟩
      · exact ⟨⟨true, true, false⟩, h, rfl⟩
      · cases h)

/-- C5: a capability notification with the Keyboard bit set and the
Pointer bit clear, from the initial state, creates exactly the keyboard
device and leaves the pointer flag false (whatever the Touch bit). -/
theorem keyboard_only_independence (t : Bool) :
    seatHandler initSeatState (.capabilities ⟨false, true, t⟩) =
      (⟨false, true⟩, [Device.keyboard]) := by
  cases t <;> decide

/-- C6: the flags are write-once and monotone: after any invocation each
flag equals its old value OR-ed with the matching capability bit (so no
true→false transition ever happens), a device is created exactly when its
bit is set while its flag is still false (so a clear bit causes no
action), and non-capability events change nothing. -/
theorem seat_flags_write_once (s : SeatState) (e : SeatEvent) :
    ((seatHandler s e).1.pointer_created =
        (s.pointer_created || pointerBitOf e)) ∧
    ((seatHandler s e).1.keyboard_created =
        (s.keyboard_created || keyboardBitOf e)) ∧
    (Device.pointer ∈ (seatHandler s e).2 ↔
      (s.pointer_created = false ∧ pointerBitOf e = true)) ∧
    (Device.keyboard ∈ (seatHandler s e).2 ↔
      (s.keyboard_created = false ∧ keyboardBitOf e = true)) := by
  obtain ⟨p, k⟩ := s
  cases e with
  | capabilities caps =>
    obtain ⟨cp, ck, ct⟩ := caps
    revert p k cp ck ct
    decide
  | name n =>
    cases p <;> cases k <;> simp [seatHandler, pointerBitOf, keyboardBitOf]

end Bean

namespace Bean

/-- With every global present, setup runs to completion with the full
ordered step list and no error. -/
theorem mainSetup_all (env : Env) (hc : env.hasCompositor = true)
    (hs : env.hasShell = true) (hst : env.hasSeat = true) :
    mainSetup env = (setupStepsOk, none) := by
  simp [mainSetup, hc, hs, hst, setupStepsOk]

/-- Every step the dispatch loop emits is a dispatch step. -/
theorem dispatchLoop_dispatch_only (ok : Nat → Bool) :
    ∀ fuel i, ∀ st ∈ (dispatchLoop ok fuel i).1, st = Step.dispatch := by
  intro fuel
  induction fuel with
  | zero => intro i st h; simp [dispatchLoop] at h
  | succ f ih =>
    intro i st h
    cases hi : ok i with
    | true =>
      simp only [dispatchLoop, hi, if_true] at h
      rcases List.mem_cons.mp h with h | h
      · exact h
      · exact ih (i + 1) st h
    | false =>
      simp [dispatchLoop, hi] at h
      exact h

/-- If the first failing dispatch call is the k-th one and there is fuel
to reach it, the loop runs exactly k+1 iterations and dies. -/
theorem dispatchLoop_stops (ok : Nat → Bool) :
    ∀ k fuel i, (∀ j, j < k → ok (i + j) = true) → ok (i + k) = false →
      k < fuel →
      dispatchLoop ok fuel i =
        (List.replicate (k + 1) Step.dispatch, some MainError.dispatchError) := by
  intro k
  induction k with
  | zero =>
    intro fuel i _ herr hfuel
    cases fuel with
    | zero => exact absurd hfuel (Nat.lt_irrefl 0)
    | succ f =>
      have h0 : ok i = false := by simpa using herr
      simp [dispatchLoop, h0]
  | succ k ih =>
    intro fuel i hok herr hfuel
    cases fuel with
    | zero => exact absurd hfuel (Nat.not_lt_zero _)
    | succ f =>
      have h0 : ok i = true := by simpa using hok 0 (Nat.succ_pos k)
      have hok' : ∀ j, j < k → ok (i + 1 + j) = true := by
        intro j hj
        have h := hok (j + 1) (Nat.succ_lt_succ hj)
        have he : i + (j + 1) = i + 1 + j := by omega
        rwa [he] at h
      have herr' : ok (i + 1 + k) = false := by
        have he : i + (k + 1) = i + 1 + k := by omega
        rwa [he] at herr
      have hfuel' : k < f := Nat.lt_of_succ_lt_succ hfuel
      simp [dispatchLoop, h0, ih f (i + 1) hok' herr' hfuel', List.replicate_succ]

/-- C3: when the shell global is absent (the compositor having been bound
first), `main` fails with the shell-unavailable condition and its trace
contains no dispatch step at all. -/
theorem shell_missing_fatal (env : Env) (fuel : Nat)
    (hc : env.hasCompositor = true) (hs : env.hasShell = false) :
    (mainRun env fuel).2 = some MainError.shellUnavailable ∧
    Step.dispatch ∉ (mainRun env fuel).1 := by
  have hsetup : mainSetup env =
      ([Step.connect, Step.syncRoundtrip1, Step.loadGl, Step.bindCompositor,
        Step.createSurface, Step.bindShell], some MainError.shellUnavailable) := by
    simp [mainSetup, hc, hs]
  simp [mainRun, hsetup]

/-- Closed witness for C3 at a concrete environment missing the shell. -/
theorem shell_missing_fatal_witness :
    (mainRun ⟨true, false, true, fun _ => true⟩ 5).2 =
        some MainError.shellUnavailable ∧
    Step.dispatch ∉ (mainRun ⟨true, false, true, fun _ => true⟩ 5).1 :=
  shell_missing_fatal ⟨true, false, true, fun _ => true⟩ 5 rfl rfl

/-- Counterexample to C4 as stated: in the actual trace of `main` the
initial draw and the commit come strictly before the second round-trip
(and before the set-toplevel request and the seat-handler registration),
not after the second round-trip as the spec orders the setup steps. -/
theorem setup_order_counterexample :
    ¬ ((mainSetup allEnv).1.indexOf Step.syncRoundtrip2 <
        (mainSetup allEnv).1.indexOf Step.drawHouse) ∧
    (mainSetup allEnv).1.indexOf Step.drawHouse <
        (mainSetup allEnv).1.indexOf Step.setToplevel ∧
    (mainSetup allEnv).1.indexOf Step.setToplevel <
        (mainSetup allEnv).1.indexOf Step.assignSeatHandler ∧
    (mainSetup allEnv).1.indexOf Step.assignSeatHandler <
        (mainSetup allEnv).1.indexOf Step.syncRoundtrip2 := by
  decide

/-- C4 amended: the setup steps occur in the order: registry discovery
round-trip, then surface/shell creation, then the initial draw and
commit, then the set-top-level request, then seat handler registration,
then the second round-trip, and only then the dispatch loop, whose steps
are all dispatch calls. -/
theorem setup_order_amended (env : Env) (fuel : Nat)
    (hc : env.hasCompositor = true) (hs : env.hasShell = true)
    (hst : env.hasSeat = true) :
    mainRun env fuel = (setupStepsOk ++ (dispatchLoop env.dispatchOk fuel 0).1,
        (dispatchLoop env.dispatchOk fuel 0).2) ∧
    (∀ st ∈ (dispatchLoop env.dispatchOk fuel 0).1, st = Step.dispatch) ∧
    setupStepsOk.indexOf Step.syncRoundtrip1 <
        setupStepsOk.indexOf Step.bindCompositor ∧
    setupStepsOk.indexOf Step.bindCompositor <
        setupStepsOk.indexOf Step.createSurface ∧
    setupStepsOk.indexOf Step.createSurface <
        setupStepsOk.indexOf Step.bindShell ∧
    setupStepsOk.indexOf Step.bindShell <
        setupStepsOk.indexOf Step.getShellSurface ∧
    setupStepsOk.indexOf Step.getShellSurface <
        setupStepsOk.indexOf Step.drawHouse ∧
    setupStepsOk.indexOf Step.drawHouse <
        setupStepsOk.indexOf Step.commitSurface ∧
    setupStepsOk.indexOf Step.commitSurface <
        setupStepsOk.indexOf Step.setToplevel ∧
    setupStepsOk.indexOf Step.setToplevel <
        setupStepsOk.indexOf Step.assignSeatHandler ∧
    setupStepsOk.indexOf Step.assignSeatHandler <
        setupStepsOk.indexOf Step.syncRoundtrip2 ∧
    Step.dispatch ∉ setupStepsOk := by
  refine ⟨?_, dispatchLoop_dispatch_only env.dispatchOk fuel 0, ?_⟩
  · simp [mainRun, mainSetup_all env hc hs hst]
  · decide

/-- Closed witness for the amended C4 at a concrete environment. -/
theorem setup_order_amended_witness :
    mainRun allEnv 2 = (setupStepsOk ++ (dispatchLoop allEnv.dispatchOk 2 0).1,
        (dispatchLoop allEnv.dispatchOk 2 0).2) ∧
    (∀ st ∈ (dispatchLoop allEnv.dispatchOk 2 0).1, st = Step.dispatch) ∧
    setupStepsOk.indexOf Step.syncRoundtrip1 <
        setupStepsOk.indexOf Step.bindCompositor ∧
    setupStepsOk.indexOf Step.bindCompositor <
        setupStepsOk.indexOf Step.createSurface ∧
    setupStepsOk.indexOf Step.createSurface <
        setupStepsOk.indexOf Step.bindShell ∧
    setupStepsOk.indexOf Step.bindShell <
        setupStepsOk.indexOf Step.getShellSurface ∧
    setupStepsOk.indexOf Step.getShellSurface <
        setupStepsOk.indexOf Step.drawHouse ∧
    setupStepsOk.indexOf Step.drawHouse <
        setupStepsOk.indexOf Step.commitSurface ∧
    setupStepsOk.indexOf Step.commitSurface <
        setupStepsOk.indexOf Step.setToplevel ∧
    setupStepsOk.indexOf Step.setToplevel <
        setupStepsOk.indexOf Step.assignSeatHandler ∧
    setupStepsOk.indexOf Step.assignSeatHandler <
        setupStepsOk.indexOf Step.syncRoundtrip2 ∧
    Step.dispatch ∉ setupStepsOk :=
  setup_order_amended allEnv 2 rfl rfl rfl

/-- C7: the blocking round-trip primitive is invoked exactly twice before
the dispatch loop — once at startup before any global is bound, once
after the seat handler is registered — and the loop itself performs no
round-trips. -/
theorem roundtrip_exactly_twice (env : Env) (fuel : Nat)
    (hc : env.hasCompositor = true) (hs : env.hasShell = true)
    (hst : env.hasSeat = true) :
    ((mainSetup env).1.countP
        (fun st => st == Step.syncRoundtrip1 || st == Step.syncRoundtrip2) = 2) ∧
    ((mainSetup env).1.count Step.syncRoundtrip1 = 1) ∧
    ((mainSetup env).1.count Step.syncRoundtrip2 = 1) ∧
    ((mainSetup env).1.indexOf Step.syncRoundtrip1 <
        (mainSetup env).1.indexOf Step.bindCompositor) ∧
    ((mainSetup env).1.indexOf Step.syncRoundtrip1 <
        (mainSetup env).1.indexOf Step.bindShell) ∧
    ((mainSetup env).1.indexOf Step.syncRoundtrip1 <
        (mainSetup env).1.indexOf Step.bindSeat) ∧
    ((mainSetup env).1.indexOf Step.assignSeatHandler <
        (mainSetup env).1.indexOf Step.syncRoundtrip2) ∧
    (∀ st ∈ (dispatchLoop env.dispatchOk fuel 0).1, st = Step.dispatch) := by
  rw [mainSetup_all env hc hs hst]
  refine ⟨?_, ?_, ?_, ?_, ?_, ?_, ?_,
    dispatchLoop_dispatch_only env.dispatchOk fuel 0⟩ <;> decide

/-- Closed witness for C7 at a concrete environment. -/
theorem roundtrip_exactly_twice_witness :
    ((mainSetup allEnv).1.countP
        (fun st => st == Step.syncRoundtrip1 || st == Step.syncRoundtrip2) = 2) ∧
    ((mainSetup allEnv).1.count Step.syncRoundtrip1 = 1) ∧
    ((mainSetup allEnv).1.count Step.syncRoundtrip2 = 1) ∧
    ((mainSetup allEnv).1.indexOf Step.syncRoundtrip1 <
        (mainSetup allEnv).1.indexOf Step.bindCompositor) ∧
    ((mainSetup allEnv).1.indexOf Step.syncRoundtrip1 <
        (mainSetup allEnv).1.indexOf Step.bindShell) ∧
    ((mainSetup allEnv).1.indexOf Step.syncRoundtrip1 <
        (mainSetup allEnv).1.indexOf Step.bindSeat) ∧
    ((mainSetup allEnv).1.indexOf Step.assignSeatHandler <
        (mainSetup allEnv).1.indexOf Step.syncRoundtrip2) ∧
    (∀ st ∈ (dispatchLoop allEnv.dispatchOk 1 0).1, st = Step.dispatch) :=
  roundtrip_exactly_twice allEnv 1 rfl rfl rfl

/-- C8: the common filter logs one distinct line for pointer Enter,
Leave, Motion, Button and keyboard Enter, Leave, Key, and logs nothing —
never an error — for every other sub-kind; the seven produced lines are
pairwise distinct. -/
theorem common_filter_demux (serial time sfc btn k fmt fd size
      depressed latched locked group src ax : Nat)
    (x y v disc rate delay : Int) (keys : List Nat)
    (bst : ButtonState) (kst : KeyState) :
    common_filter (.pointer (.enter serial sfc x y)) = [.pointerEnteredAt x y] ∧
    common_filter (.pointer (.leave serial sfc)) = [.pointerLeft] ∧
    common_filter (.pointer (.motion time x y)) = [.pointerMovedTo x y] ∧
    common_filter (.pointer (.button serial time btn bst)) = [.buttonWas btn bst] ∧
    common_filter (.pointer (.axis time ax v)) = [] ∧
    common_filter (.pointer .frame) = [] ∧
    common_filter (.pointer (.axisSource src)) = [] ∧
    common_filter (.pointer (.axisStop time ax)) = [] ∧
    common_filter (.pointer (.axisDiscrete ax disc)) = [] ∧
    common_filter (.keyboard (.keymap fmt fd size)) = [] ∧
    common_filter (.keyboard (.enter serial sfc keys)) = [.gainedKeyboardFocus] ∧
    common_filter (.keyboard (.leave serial sfc)) = [.lostKeyboardFocus] ∧
    common_filter (.keyboard (.key serial time k kst)) = [.keyWas k kst] ∧
    common_filter (.keyboard (.modifiers serial depressed latched locked group)) = [] ∧
    common_filter (.keyboard (.repeatInfo rate delay)) = [] ∧
    ([LogLine.pointerEnteredAt x y, LogLine.pointerLeft, LogLine.pointerMovedTo x y,
      LogLine.buttonWas btn bst, LogLine.gainedKeyboardFocus,
      LogLine.lostKeyboardFocus, LogLine.keyWas k kst]).Nodup := by
  refine ⟨rfl, rfl, rfl, rfl, rfl, rfl, rfl, rfl, rfl, rfl, rfl, rfl, rfl, rfl, rfl, ?_⟩
  simp

/-- C9: once a dispatch call fails, `main` terminates with the dispatch
error at once: the trace holds exactly the k+1 dispatch calls made up to
and including the failing one, so the loop body is never re-entered. -/
theorem dispatch_error_terminates (env : Env) (k fuel : Nat)
    (hc : env.hasCompositor = true) (hs : env.hasShell = true)
    (hst : env.hasSeat = true)
    (hok : ∀ j, j < k → env.dispatchOk j = true)
    (herr : env.dispatchOk k = false) (hfuel : k < fuel) :
    (mainRun env fuel).2 = some MainError.dispatchError ∧
    (mainRun env fuel).1.count Step.dispatch = k + 1 := by
  have hloop := dispatchLoop_stops env.dispatchOk k fuel 0
    (by intro j hj; simpa using hok j hj) (by simpa using herr) hfuel
  have hmain : mainRun env fuel =
      (setupStepsOk ++ List.replicate (k + 1) Step.dispatch,
       some MainError.dispatchError) := by
    simp [mainRun, mainSetup_all env hc hs hst, hloop]
  rw [hmain]
  refine ⟨rfl, ?_⟩
  have hsetup : setupStepsOk.count Step.dispatch = 0 := by decide
  simp [List.count_append, hsetup]

/-- Closed witness for C9: with the very first dispatch call failing, the
process dies after exactly one dispatch step. -/
theorem dispatch_error_terminates_witness :
    (mainRun envDispatchFail 1).2 = some MainError.dispatchError ∧
    (mainRun envDispatchFail 1).1.count Step.dispatch = 0 + 1 :=
  dispatch_error_terminates envDispatchFail 0 1 rfl rfl rfl
    (fun j hj => absurd hj (Nat.not_lt_zero j)) rfl Nat.zero_lt_one

/-- C10: the fallback handlers are not uniform: for any unclaimed
message, the first round-trip's fallback aborts the process (it is an
unreachable-code assertion) while the second round-trip's and the
dispatch loop's fallbacks ignore it. -/
theorem fallback_handlers_differ (m : Nat) :
    roundtrip1Fallback m = FallbackOutcome.abortProcess ∧
    roundtrip2Fallback m = FallbackOutcome.ignored ∧
    dispatchFallback m = FallbackOutcome.ignored ∧
    roundtrip1Fallback m ≠ roundtrip2Fallback m := by
  refine ⟨rfl, rfl, rfl, ?_⟩
  simp [roundtrip1Fallback, roundtrip2Fallback]

end Bean
